import Mathlib

/-!
A shallow embedding of the chargeback-api persistence layer
(`internal/infra/repository/dynamodb_chargeback_repository.go`) and of the
HTTP handler for `POST /chargebacks` (`ChargebackHandler.CreateChargeback`),
together with proofs about the embedded operations.

Modelling conventions:
* Machine times (`time.Time`, `UnixNano`) are `Nat` timestamps; "the current
  time" is an explicit `now : Nat` argument wherever the Go code calls
  `time.Now()`.
* The DynamoDB table is a list of items (`Db`); the store's conditional-write
  primitives (`attribute_not_exists(id)` / `attribute_exists(id)`) are
  modelled as atomic operations on that list that fail (return `none`) exactly
  when the condition fails.
* A paginated `Scan` is modelled by `scanPage`: the store returns the next
  page of the sweep, capped both by the requested `Limit` and by a
  per-call page bound `cap` (modelling DynamoDB's 1 MB page bound), plus a
  continuation token (`LastEvaluatedKey`) which is `none` exactly when the
  sweep is exhausted.
* Since the Go code mutates the `*entity.Chargeback` it is handed, `Save` and
  `Update` return the record as left by the call alongside the store result.
* `attributevalue.MarshalMap`/`UnmarshalMap` on the well-typed item struct are
  modelled as total conversions (`entityToItem`/`itemToEntity`).
-/

/-- Modelled from the spec: the domain entity package
(`internal/domain/entity`, not part of the repository sources available here)
defines `ChargebackReason` as a string-valued enumeration; the handler uses
the enumerants for fraud, authorization_error, processing_error and
consumer_dispute. -/
abbrev ChargebackReason := String

/-- Modelled from the spec: reason enumerant for fraud. -/
def ReasonFraud : ChargebackReason := "fraud"

/-- Modelled from the spec: reason enumerant for authorization errors. -/
def ReasonAuthorizationError : ChargebackReason := "authorization_error"

/-- Modelled from the spec: reason enumerant for processing errors. -/
def ReasonProcessingError : ChargebackReason := "processing_error"

/-- Modelled from the spec: reason enumerant for consumer disputes. -/
def ReasonConsumerDispute : ChargebackReason := "consumer_dispute"

/-- Modelled from the spec: the domain entity package defines
`ChargebackStatus` as a string-valued enumeration (pending / approved /
rejected). -/
abbrev ChargebackStatus := String

/-- Modelled from the spec: the domain entity `Chargeback`
(`internal/domain/entity`, not part of the sources available here); its
fields mirror the persisted item shape field for field, as witnessed by the
conversions in the repository source. -/
structure Chargeback where
  ID : String
  TransactionID : String
  MerchantID : String
  Amount : Float
  Currency : String
  CardNumber : String
  Reason : ChargebackReason
  Status : ChargebackStatus
  Description : String
  TransactionDate : Nat
  ChargebackDate : Nat
  CreatedAt : Nat
  UpdatedAt : Nat

/-- `chargebackItem`: the DynamoDB item structure
(dynamodb_chargeback_repository.go, lines 31-46). -/
structure chargebackItem where
  ID : String
  TransactionID : String
  MerchantID : String
  Amount : Float
  Currency : String
  CardNumber : String
  Reason : String
  Status : String
  Description : String
  TransactionDate : Nat
  ChargebackDate : Nat
  CreatedAt : Nat
  UpdatedAt : Nat

/-- The item built from an entity inside `Save` (lines 55-69) and `Update`
(lines 174-188) followed by `attributevalue.MarshalMap`. -/
def entityToItem (cb : Chargeback) : chargebackItem :=
  { ID := cb.ID
    TransactionID := cb.TransactionID
    MerchantID := cb.MerchantID
    Amount := cb.Amount
    Currency := cb.Currency
    CardNumber := cb.CardNumber
    Reason := cb.Reason
    Status := cb.Status
    Description := cb.Description
    TransactionDate := cb.TransactionDate
    ChargebackDate := cb.ChargebackDate
    CreatedAt := cb.CreatedAt
    UpdatedAt := cb.UpdatedAt }

/-- `itemToEntity` (lines 332-349). -/
def itemToEntity (item : chargebackItem) : Chargeback :=
  { ID := item.ID
    TransactionID := item.TransactionID
    MerchantID := item.MerchantID
    Amount := item.Amount
    Currency := item.Currency
    CardNumber := item.CardNumber
    Reason := item.Reason
    Status := item.Status
    Description := item.Description
    TransactionDate := item.TransactionDate
    ChargebackDate := item.ChargebackDate
    CreatedAt := item.CreatedAt
    UpdatedAt := item.UpdatedAt }

/-- Decimal digit characters, as produced by `fmt.Sprintf` with the `%d`
verb. -/
def digitChar : Nat → Char
  | 0 => '0' | 1 => '1' | 2 => '2' | 3 => '3' | 4 => '4'
  | 5 => '5' | 6 => '6' | 7 => '7' | 8 => '8' | 9 => '9'
  | _ => '*'

/-- The list of decimal digit characters of `n`, most significant first:
the rendering `%d` applies to a non-negative integer. -/
def natChars (n : Nat) : List Char :=
  if n < 10 then [digitChar n]
  else natChars (n / 10) ++ [digitChar (n % 10)]
  termination_by n
  decreasing_by exact Nat.div_lt_self (by omega) (by omega)

/-- The decimal string of `n`, as `fmt.Sprintf` renders `%d` for a
non-negative integer. -/
def natStr (n : Nat) : String := String.mk (natChars n)

/-- `generateChargebackID` (lines 351-354):
`fmt.Sprintf("cb_%d", time.Now().UnixNano())`, with the current
nanosecond timestamp passed explicitly. -/
def generateChargebackID (now : Nat) : String := "cb_" ++ natStr now

/-- The DynamoDB table: a list of items keyed on `id`. -/
abbrev Db := List chargebackItem

/-- `GetItem` on key `id`: the first (unique, since `id` is the table's
primary key) item with that id. -/
def dbFind (db : Db) (id : String) : Option chargebackItem :=
  db.find? (fun it => it.ID == id)

/-- `PutItem` with `ConditionExpression: attribute_not_exists(id)`:
atomically inserts the item, failing (`none`) when an item with the same id
already exists. -/
def putItemIfAbsent (db : Db) (item : chargebackItem) : Option Db :=
  if (dbFind db item.ID).isSome then none else some (item :: db)

/-- `PutItem` with `ConditionExpression: attribute_exists(id)`:
atomically replaces the item with the same id, failing (`none`) when no such
item exists. -/
def putItemIfPresent (db : Db) (item : chargebackItem) : Option Db :=
  if (dbFind db item.ID).isSome then
    some (db.map (fun it => if it.ID == item.ID then item else it))
  else none

/-- `DeleteItem` with `ConditionExpression: attribute_exists(id)`:
atomically removes the item with the given id, failing (`none`) when no such
item exists. -/
def deleteItemIfPresent (db : Db) (id : String) : Option Db :=
  if (dbFind db id).isSome then some (db.filter (fun it => it.ID != id)) else none

/-- `Save` (lines 48-88): generates an id when the incoming one is empty,
marshals the entity and writes it with the `attribute_not_exists(id)`
condition.  Returns the record as the caller's pointer sees it after the
call, together with the store outcome. -/
def Save (db : Db) (now : Nat) (chargeback : Chargeback) :
    Chargeback × Except String Db :=
  let cb := if chargeback.ID = "" then
    { chargeback with ID := generateChargebackID now } else chargeback
  match putItemIfAbsent db (entityToItem cb) with
  | none => (cb, .error "failed to save chargeback: ConditionalCheckFailedException")
  | some db2 => (cb, .ok db2)

/-- `FindByID` (lines 90-113).  `storeFails` models a failure of the
underlying `GetItem` call itself (network / permission / store error). -/
def FindByID (db : Db) (storeFails : Bool) (id : String) :
    Except String (Option Chargeback) :=
  if storeFails then .error "failed to get chargeback: store failure"
  else
    match dbFind db id with
    | none => .ok none
    | some item => .ok (some (itemToEntity item))

/-- The `Query` on the `transaction-id-index` GSI issued by
`FindByTransactionID` (lines 117-125): all items whose `transaction_id`
equals the key, in index order, truncated to the requested `Limit`. -/
def queryByTransactionID (db : Db) (transactionID : String) (lim : Nat) :
    List chargebackItem :=
  (db.filter (fun it => it.TransactionID == transactionID)).take lim

/-- `FindByTransactionID` (lines 115-141): queries the GSI with `Limit: 1`
and returns the first item if any. -/
def FindByTransactionID (db : Db) (transactionID : String) :
    Except String (Option Chargeback) :=
  match queryByTransactionID db transactionID 1 with
  | [] => .ok none
  | item :: _ => .ok (some (itemToEntity item))

/-- `Update` (lines 170-207): overwrites the record's `UpdatedAt` with the
current time, marshals it and writes it with the `attribute_exists(id)`
condition.  Returns the record as the caller's pointer sees it after the
call, together with the store outcome. -/
def Update (db : Db) (now : Nat) (chargeback : Chargeback) :
    Chargeback × Except String Db :=
  let cb := { chargeback with UpdatedAt := now }
  match putItemIfPresent db (entityToItem cb) with
  | none => (cb, .error "failed to update chargeback: ConditionalCheckFailedException")
  | some db2 => (cb, .ok db2)

/-- `Delete` (lines 209-225): deletes by id with the `attribute_exists(id)`
condition. -/
def Delete (db : Db) (id : String) : Except String Db :=
  match deleteItemIfPresent db id with
  | none => .error "failed to delete chargeback: ConditionalCheckFailedException"
  | some db2 => .ok db2

/-- One `Scan` call (used by `List`): from sweep position `pos`, the store
returns the next page — at most `limit` items (the request's `Limit`) and at
most `cap` items (the store's own page bound for this call) — together with
`LastEvaluatedKey`, which is `none` exactly when the sweep is exhausted. -/
def scanPage (store : Db) (limit pos cap : Nat) : Db × Option Nat :=
  let page := (store.drop pos).take (min limit cap)
  let pos2 := pos + page.length
  (page, if pos2 < store.length then some pos2 else none)

/-- The accumulation loop of `List` for `offset > 0` (lines 272-288):
scan, append to `scannedItems`, stop when `offset+limit` items are
accumulated or `LastEvaluatedKey` is nil.  `caps k` is the store's page bound
for the `k`-th call; `fuel` bounds the number of iterations (the Go loop has
no such bound, but with positive `limit` and page bounds every iteration
advances the sweep, so any `fuel > store.length` is enough). -/
def sweepLoop (store : Db) (limit offset : Nat) (caps : Nat → Nat) :
    Nat → Nat → Nat → Db → Db
  | 0, _, _, acc => acc
  | fuel+1, k, pos, acc =>
    if acc.length < offset + limit then
      let sp := scanPage store limit pos (caps k)
      match sp.2 with
      | none => acc ++ sp.1
      | some p => sweepLoop store limit offset caps fuel (k+1) p (acc ++ sp.1)
    else acc

/-- `List` (lines 257-330), named `ListOp` since `List` is taken in Lean.
For `offset > 0`: run the accumulation loop, return the empty list when
`offset ≥ len(scannedItems)`, else the slice `scannedItems[offset:endIndex]`
with `endIndex = min (offset+limit) len(scannedItems)`, unmarshalled.
For `offset = 0` (simple case, lines 314-329): a single `Scan`, returning
that one page unmarshalled. -/
def ListOp (store : Db) (caps : Nat → Nat) (fuel : Nat)
    (offset limit : Nat) : List Chargeback :=
  if 0 < offset then
    let scanned := sweepLoop store limit offset caps fuel 0 0 []
    if scanned.length ≤ offset then []
    else
      let endIndex := min (offset + limit) scanned.length
      ((scanned.take endIndex).drop offset).map itemToEntity
  else
    ((scanPage store limit 0 (caps 0)).1).map itemToEntity

/-- Go's `strings.Contains`: `pat` occurs as a contiguous substring of `s`
(on the underlying character sequences). -/
def goContains (s pat : String) : Bool :=
  (List.range (s.data.length + 1)).any
    (fun i => (s.data.drop i).take pat.data.length == pat.data)

/-- Modelled from the spec: the use-case request struct
(`internal/usecase`, not part of the sources available here); its fields are
exactly those the handler fills in (handler source, lines 96-105). -/
structure UseCaseRequest where
  TransactionID : String
  MerchantID : String
  Amount : Float
  Currency : String
  CardNumber : String
  Reason : ChargebackReason
  Description : String
  TransactionDate : Nat

/-- ASCII lower-casing of one character, as Go's `strings.ToLower` acts on
the ASCII range (the only range the four accepted spellings exercise). -/
def charToLower : Char → Char
  | 'A' => 'a' | 'B' => 'b' | 'C' => 'c' | 'D' => 'd' | 'E' => 'e'
  | 'F' => 'f' | 'G' => 'g' | 'H' => 'h' | 'I' => 'i' | 'J' => 'j'
  | 'K' => 'k' | 'L' => 'l' | 'M' => 'm' | 'N' => 'n' | 'O' => 'o'
  | 'P' => 'p' | 'Q' => 'q' | 'R' => 'r' | 'S' => 's' | 'T' => 't'
  | 'U' => 'u' | 'V' => 'v' | 'W' => 'w' | 'X' => 'x' | 'Y' => 'y'
  | 'Z' => 'z'
  | c => c

/-- Go's `strings.ToLower` (ASCII fragment): lower-case every character. -/
def goToLower (s : String) : String := String.mk (s.data.map charToLower)

/-- `parseChargebackReason` (handler source, lines 141-155): switch on
`strings.ToLower(reason)` (modelled by `goToLower`) over the four accepted
spellings;
anything else is an error naming the valid options. -/
def parseChargebackReason (reason : String) : Except String ChargebackReason :=
  let lower := goToLower reason
  if lower = "fraud" then .ok ReasonFraud
  else if lower = "authorization_error" then .ok ReasonAuthorizationError
  else if lower = "processing_error" then .ok ReasonProcessingError
  else if lower = "consumer_dispute" then .ok ReasonConsumerDispute
  else .error ("invalid reason \x27" ++ reason ++
    "\x27. Valid options: fraud, authorization_error, processing_error, consumer_dispute")

/-- The decoded JSON body of a `POST /chargebacks` request
(`CreateChargebackRequest`, handler source, lines 32-42). -/
structure CreateChargebackRequest where
  TransactionID : String
  MerchantID : String
  Amount : Float
  Currency : String
  CardNumber : String
  Reason : String
  Description : String
  TransactionDate : String

/-- An inbound HTTP request as the handler observes it: the method, the
`Content-Type` header, and the outcome of decoding the body as JSON
(`none` models a body `encoding/json` rejects). -/
structure HttpRequest where
  method : String
  contentType : String
  body : Option CreateChargebackRequest

/-- A response body: either the single-field error object
(`ErrorResponse`, handler source, lines 44-47) or a success payload. -/
inductive HttpBody (ρ : Type) where
  | err (msg : String)
  | payload (r : ρ)
deriving DecidableEq

/-- `handleUseCaseError` (handler source, lines 120-139): classify the error
message by substring and pick the status code. -/
def handleUseCaseError {ρ : Type} (msg : String) : Nat × HttpBody ρ :=
  if goContains msg "validation errors" then (400, .err msg)
  else if goContains msg "already exists" then (409, .err msg)
  else if goContains msg "failed to create chargeback entity" then (400, .err msg)
  else (500, .err msg)

/-- `CreateChargeback` (handler source, lines 49-118), as a function from the
observed request to the written status code and body.  The two external
collaborators are parameters: `parseRFC3339` models
`time.Parse(time.RFC3339, ·)` (`none` = parse error) and `exec` models
`h.createChargebackUC.Execute`. -/
def CreateChargeback {ρ : Type} (parseRFC3339 : String → Option Nat)
    (exec : UseCaseRequest → Except String ρ) (r : HttpRequest) :
    Nat × HttpBody ρ :=
  if r.method ≠ "POST" then (405, .err "Method not allowed")
  else if ¬ goContains r.contentType "application/json" then
    (415, .err "Content-Type must be application/json")
  else
    match r.body with
    | none => (400, .err "Invalid JSON format")
    | some req =>
      match parseRFC3339 req.TransactionDate with
      | none => (400, .err "Invalid transaction_date format. Use RFC3339 format")
      | some transactionDate =>
        match parseChargebackReason req.Reason with
        | .error e => (400, .err e)
        | .ok reason =>
          match exec { TransactionID := req.TransactionID
                       MerchantID := req.MerchantID
                       Amount := req.Amount
                       Currency := req.Currency
                       CardNumber := req.CardNumber
                       Reason := reason
                       Description := req.Description
                       TransactionDate := transactionDate } with
          | .error e => handleUseCaseError e
          | .ok resp => (201, .payload resp)

/-- A concrete stored item used to instantiate theorems with hypotheses. -/
def sampleItem : chargebackItem :=
  { ID := "cb_1", TransactionID := "tx_1", MerchantID := "m_1", Amount := 0,
    Currency := "USD", CardNumber := "4111", Reason := "fraud",
    Status := "pending", Description := "", TransactionDate := 0,
    ChargebackDate := 0, CreatedAt := 0, UpdatedAt := 0 }

/-- The entity corresponding to `sampleItem`. -/
def sampleEntity : Chargeback := itemToEntity sampleItem

/-- A second stored item sharing `sampleItem`'s transaction id, to exercise
the duplicate-match case of C6. -/
def sampleItemDup : chargebackItem := { sampleItem with ID := "cb_2" }

/-- An entity with an empty identifier, as handed to `Save` by the creation
workflow. -/
def freshEntity : Chargeback := { sampleEntity with ID := "" }

/-- A concrete decoded request body for instantiating the handler
theorems. -/
def sampleReqBody : CreateChargebackRequest :=
  { TransactionID := "tx_1", MerchantID := "m_1", Amount := 0,
    Currency := "USD", CardNumber := "4111111111111111", Reason := "fraud",
    Description := "", TransactionDate := "2024-01-01T00:00:00Z" }

/-- A concrete decoded request body with an unaccepted reason string. -/
def sampleReqBodyBadReason : CreateChargebackRequest :=
  { sampleReqBody with Reason := "invalid_reason" }

/-! ## Helper lemmas about the store primitives -/

/-- `Save` leaves the caller's record in the same state whether or not the
store write succeeds. -/
theorem Save_fst (db : Db) (now : Nat) (cb : Chargeback) :
    (Save db now cb).1 =
      if cb.ID = "" then { cb with ID := generateChargebackID now } else cb := by
  unfold Save
  cases h : putItemIfAbsent db
      (entityToItem (if cb.ID = "" then { cb with ID := generateChargebackID now } else cb)) <;>
    simp only [h]

/-- `Update` leaves the caller's record with the refreshed timestamp whether
or not the store write succeeds. -/
theorem Update_fst (db : Db) (now : Nat) (cb : Chargeback) :
    (Update db now cb).1 = { cb with UpdatedAt := now } := by
  unfold Update
  cases h : putItemIfPresent db (entityToItem { cb with UpdatedAt := now }) <;>
    simp only [h]

/-- Replacing the item with a given id is visible to a subsequent point read
of that id. -/
theorem dbFind_replace (db : Db) (id : String) (item : chargebackItem)
    (hid : item.ID = id) (h : (dbFind db id).isSome) :
    dbFind (db.map (fun it => if it.ID == item.ID then item else it)) id =
      some item := by
  induction db with
  | nil => simp [dbFind] at h
  | cons a tl ih =>
    by_cases ha : a.ID = id
    · simp [dbFind, hid, ha]
    · have ha2 : (a.ID == item.ID) = false := by simp [hid, ha]
      have ha3 : (a.ID == id) = false := by simp [ha]
      simp only [dbFind, List.find?] at h ⊢
      simp only [List.map_cons, ha2, if_neg, Bool.false_eq_true, ite_false, ha3] at h ⊢
      exact ih h

/-- Claim C2: `Save` fails whenever an item with the record's identifier (after
id generation) already exists; `Update` fails whenever no item with the
record's identifier exists; `Delete id` fails whenever no item with
identifier `id` exists.  Each guard is the store's atomic conditional-write
primitive (`putItemIfAbsent` / `putItemIfPresent` / `deleteItemIfPresent`),
not a client-side read-then-write pair. -/
theorem claim_C2 :
    (∀ (db : Db) (now : Nat) (cb : Chargeback),
        (dbFind db ((Save db now cb).1).ID).isSome = true →
        ∃ e, (Save db now cb).2 = .error e) ∧
    (∀ (db : Db) (now : Nat) (cb : Chargeback),
        dbFind db cb.ID = none → ∃ e, (Update db now cb).2 = .error e) ∧
    (∀ (db : Db) (id : String),
        dbFind db id = none → ∃ e, Delete db id = .error e) := by
  refine ⟨?_, ?_, ?_⟩
  · intro db now cb h
    rw [Save_fst] at h
    have hput : putItemIfAbsent db
        (entityToItem (if cb.ID = "" then
          { cb with ID := generateChargebackID now } else cb)) = none := by
      unfold putItemIfAbsent
      simp only [show (entityToItem (if cb.ID = "" then
          { cb with ID := generateChargebackID now } else cb)).ID =
          (if cb.ID = "" then
            { cb with ID := generateChargebackID now } else cb).ID from rfl, h,
        ite_true]
    unfold Save
    simp only [hput]
    exact ⟨_, rfl⟩
  · intro db now cb h
    have hput : putItemIfPresent db
        (entityToItem { cb with UpdatedAt := now }) = none := by
      unfold putItemIfPresent
      simp only [show (entityToItem { cb with UpdatedAt := now }).ID = cb.ID
          from rfl, h, Option.isSome_none, Bool.false_eq_true, ite_false]
    unfold Update
    simp only [hput]
    exact ⟨_, rfl⟩
  · intro db id h
    have hdel : deleteItemIfPresent db id = none := by
      unfold deleteItemIfPresent
      simp only [h, Option.isSome_none, Bool.false_eq_true, ite_false]
    unfold Delete
    simp only [hdel]
    exact ⟨_, rfl⟩

/-- Witness for C2 at concrete inputs: saving an entity whose id is already
present fails; updating against an empty table fails; deleting from an empty
table fails. -/
theorem claim_C2_witness :
    (∃ e, (Save [sampleItem] 7 sampleEntity).2 = .error e) ∧
    (∃ e, (Update [] 7 sampleEntity).2 = .error e) ∧
    (∃ e, Delete [] "cb_1" = .error e) :=
  ⟨claim_C2.1 [sampleItem] 7 sampleEntity (by decide),
   claim_C2.2.1 [] 7 sampleEntity rfl,
   claim_C2.2.2 [] "cb_1" rfl⟩

/-- Claim C3: for every record whose identifier exists in the store (with stored
timestamp `prev.UpdatedAt` older than the current time `now`), `Update`
succeeds and the stored item's last-update timestamp becomes `now`, strictly
past its previous value; for every identifier not in the store, `Update`
fails with an error. -/
theorem claim_C3 :
    (∀ (db : Db) (now : Nat) (cb : Chargeback) (prev : chargebackItem),
        dbFind db cb.ID = some prev → prev.UpdatedAt < now →
        ∃ db2, (Update db now cb).2 = .ok db2 ∧
          dbFind db2 cb.ID = some (entityToItem { cb with UpdatedAt := now }) ∧
          (entityToItem { cb with UpdatedAt := now }).UpdatedAt = now ∧
          prev.UpdatedAt < (entityToItem { cb with UpdatedAt := now }).UpdatedAt) ∧
    (∀ (db : Db) (now : Nat) (cb : Chargeback),
        dbFind db cb.ID = none → ∃ e, (Update db now cb).2 = .error e) := by
  constructor
  · intro db now cb prev hfind hlt
    have hid : (entityToItem { cb with UpdatedAt := now }).ID = cb.ID := rfl
    have hsome : (dbFind db (entityToItem { cb with UpdatedAt := now }).ID).isSome = true := by
      rw [hid, hfind]; rfl
    have hput : putItemIfPresent db (entityToItem { cb with UpdatedAt := now }) =
        some (db.map (fun it =>
          if it.ID == (entityToItem { cb with UpdatedAt := now }).ID then
            entityToItem { cb with UpdatedAt := now } else it)) := by
      unfold putItemIfPresent
      simp only [hsome, ite_true]
    refine ⟨List.map (fun it =>
        if it.ID == cb.ID then entityToItem { cb with UpdatedAt := now }
        else it) db, ?_, ?_, rfl, hlt⟩
    · unfold Update
      simp only [hput]
      rfl
    · exact dbFind_replace db cb.ID _ hid (by rw [hfind]; rfl)
  · intro db now cb h
    have hput : putItemIfPresent db
        (entityToItem { cb with UpdatedAt := now }) = none := by
      unfold putItemIfPresent
      simp only [show (entityToItem { cb with UpdatedAt := now }).ID = cb.ID
          from rfl, h, Option.isSome_none, Bool.false_eq_true, ite_false]
    unfold Update
    simp only [hput]
    exact ⟨_, rfl⟩

/-- Witness for C3 at concrete inputs: updating the one stored record at a
later time succeeds and strictly advances its stored timestamp; updating
against an empty table fails. -/
theorem claim_C3_witness :
    (∃ db2, (Update [sampleItem] 7 sampleEntity).2 = .ok db2 ∧
      dbFind db2 sampleEntity.ID =
        some (entityToItem { sampleEntity with UpdatedAt := 7 }) ∧
      (entityToItem { sampleEntity with UpdatedAt := 7 }).UpdatedAt = 7 ∧
      sampleItem.UpdatedAt <
        (entityToItem { sampleEntity with UpdatedAt := 7 }).UpdatedAt) ∧
    (∃ e, (Update [] 7 sampleEntity).2 = .error e) :=
  ⟨claim_C3.1 [sampleItem] 7 sampleEntity sampleItem rfl (by decide),
   claim_C3.2 [] 7 sampleEntity rfl⟩

/-- Claim C5: `FindByID` returns an absent result (`ok none`) and no error for
every identifier with no matching item, and returns an error only when the
underlying store call itself fails. -/
theorem claim_C5 :
    (∀ (db : Db) (id : String), dbFind db id = none →
        FindByID db false id = .ok none) ∧
    (∀ (db : Db) (storeFails : Bool) (id e : String),
        FindByID db storeFails id = .error e → storeFails = true) := by
  constructor
  · intro db id h
    unfold FindByID
    simp only [h, Bool.false_eq_true, ite_false]
  · intro db storeFails id e h
    cases storeFails with
    | true => rfl
    | false =>
      unfold FindByID at h
      simp only [Bool.false_eq_true, ite_false] at h
      cases hf : dbFind db id <;> simp only [hf] at h <;>
        exact Except.noConfusion h

/-- Witness for C5 at concrete inputs: a never-saved identifier yields
`ok none`; the only error the operation can produce comes from a failing
store call. -/
theorem claim_C5_witness :
    FindByID [sampleItem] false "cb_nope" = .ok none ∧
    (FindByID [] true "cb_1" = .error "failed to get chargeback: store failure" →
      (true : Bool) = true) :=
  ⟨claim_C5.1 [sampleItem] "cb_nope" rfl,
   claim_C5.2 [] true "cb_1" "failed to get chargeback: store failure"⟩

/-- Claim C6: `FindByTransactionID` returns `ok none` when the secondary index
yields no item for the transaction id, and otherwise returns exactly the
first item the index yields — even when several stored items match. -/
theorem claim_C6 :
    (∀ (db : Db) (tx : String),
        db.filter (fun it => it.TransactionID == tx) = [] →
        FindByTransactionID db tx = .ok none) ∧
    (∀ (db : Db) (tx : String) (item : chargebackItem)
        (rest : List chargebackItem),
        db.filter (fun it => it.TransactionID == tx) = item :: rest →
        FindByTransactionID db tx = .ok (some (itemToEntity item))) := by
  constructor
  · intro db tx h
    unfold FindByTransactionID queryByTransactionID
    rw [h]
    rfl
  · intro db tx item rest h
    unfold FindByTransactionID queryByTransactionID
    rw [h]
    rfl

/-- Witness for C6 at concrete inputs: no match yields `ok none`; two stored
items with the same transaction id yield the first one. -/
theorem claim_C6_witness :
    FindByTransactionID [sampleItem] "tx_nope" = .ok none ∧
    FindByTransactionID [sampleItem, sampleItemDup] "tx_1" =
      .ok (some (itemToEntity sampleItem)) :=
  ⟨claim_C6.1 [sampleItem] "tx_nope" rfl,
   claim_C6.2 [sampleItem, sampleItemDup] "tx_1" sampleItem [sampleItemDup]
     rfl⟩

/-- Claim C9: `Save` and `Update` mutate the caller's record before the store
write — `Save` assigns the generated identifier when the incoming one is
empty, and `Update` overwrites the last-update timestamp with the current
time — and the returned (caller-visible) record carries these mutations
unconditionally, in the error runs just as in the successful ones: they are
never rolled back. -/
theorem claim_C9 :
    (∀ (db : Db) (now : Nat) (cb : Chargeback), cb.ID = "" →
        (Save db now cb).1 = { cb with ID := generateChargebackID now }) ∧
    (∀ (db : Db) (now : Nat) (cb : Chargeback), cb.ID ≠ "" →
        (Save db now cb).1 = cb) ∧
    (∀ (db : Db) (now : Nat) (cb : Chargeback),
        (Update db now cb).1 = { cb with UpdatedAt := now }) := by
  refine ⟨?_, ?_, fun db now cb => Update_fst db now cb⟩
  · intro db now cb h
    rw [Save_fst, if_pos h]
  · intro db now cb h
    rw [Save_fst, if_neg h]

/-- Witness for C9 at concrete inputs — including an error run: saving
`freshEntity` into a table that already holds the id generated at time 5
fails, yet the returned record keeps the generated id; the update mutation
applies against the empty table (where `Update` errors) as well. -/
theorem claim_C9_witness :
    (Save [] 5 freshEntity).1 = { freshEntity with ID := generateChargebackID 5 } ∧
    (Save [entityToItem { freshEntity with ID := generateChargebackID 5 }] 5
        freshEntity).1 =
      { freshEntity with ID := generateChargebackID 5 } ∧
    (Save [] 5 sampleEntity).1 = sampleEntity ∧
    (Update [] 7 sampleEntity).1 = { sampleEntity with UpdatedAt := 7 } :=
  ⟨claim_C9.1 [] 5 freshEntity rfl,
   claim_C9.1 [entityToItem { freshEntity with ID := generateChargebackID 5 }] 5
     freshEntity rfl,
   claim_C9.2.1 [] 5 sampleEntity (by decide),
   claim_C9.2.2 [] 7 sampleEntity⟩

/-- Invariant of the `List` accumulation loop: starting at sweep position
`pos` with the accumulator holding exactly the first `pos` items of the
sweep, the loop returns the first `p` items for some `p ≥ pos` that either
exhausts the sweep or reaches the `offset+limit` target. -/
theorem sweepLoop_spec (store : Db) (limit offset : Nat) (caps : Nat → Nat)
    (hl : 1 ≤ limit) (hc : ∀ k, 1 ≤ caps k) :
    ∀ (fuel pos k : Nat), pos ≤ store.length → store.length - pos < fuel →
    ∃ p, pos ≤ p ∧ p ≤ store.length ∧
      sweepLoop store limit offset caps fuel k pos (store.take pos) =
        store.take p ∧
      (store.length ≤ p ∨ offset + limit ≤ p) := by
  intro fuel
  induction fuel with
  | zero => intro pos k hpos hf; omega
  | succ fuel ih =>
    intro pos k hpos hf
    by_cases hacc : (store.take pos).length < offset + limit
    case neg =>
      refine ⟨pos, le_refl _, hpos, ?_, Or.inr ?_⟩
      · unfold sweepLoop
        rw [if_neg hacc]
      · rw [List.length_take, Nat.min_eq_left hpos] at hacc
        omega
    case pos =>
      by_cases hend : pos = store.length
      · subst hend
        refine ⟨store.length, le_refl _, le_refl _, ?_, Or.inl (le_refl _)⟩
        unfold sweepLoop
        rw [if_pos hacc]
        simp [scanPage]
      · have hlt : pos < store.length := lt_of_le_of_ne hpos hend
        have hn : 1 ≤ min limit (caps k) := le_min hl (hc k)
        have hplen : ((store.drop pos).take (min limit (caps k))).length =
            min (min limit (caps k)) (store.length - pos) := by
          simp
        have hpage : 1 ≤ ((store.drop pos).take (min limit (caps k))).length := by
          rw [hplen]
          exact le_min hn (by omega)
        have hdt : (store.drop pos).take
            ((store.drop pos).take (min limit (caps k))).length =
            (store.drop pos).take (min limit (caps k)) := by
          rw [List.take_eq_take]
          simp
        have hacc2 : store.take pos ++ (store.drop pos).take (min limit (caps k)) =
            store.take (pos + ((store.drop pos).take (min limit (caps k))).length) := by
          rw [List.take_add, hdt]
        have hp2le : pos + ((store.drop pos).take (min limit (caps k))).length ≤
            store.length := by
          rw [hplen]
          omega
        by_cases hcont :
            pos + ((store.drop pos).take (min limit (caps k))).length < store.length
        · obtain ⟨p, hp1, hp2, hp3, hp4⟩ :=
            ih (pos + ((store.drop pos).take (min limit (caps k))).length) (k + 1)
              (le_of_lt hcont) (by omega)
          refine ⟨p, by omega, hp2, ?_, hp4⟩
          unfold sweepLoop
          rw [if_pos hacc]
          simp only [scanPage, if_pos hcont]
          rw [hacc2]
          exact hp3
        · refine ⟨store.length, hpos, le_refl _, ?_, Or.inl (le_refl _)⟩
          unfold sweepLoop
          rw [if_pos hacc]
          simp only [scanPage, if_neg hcont]
          rw [hacc2]
          congr 1
          omega

/-- Claim C4: whenever `offset` is at least the total number of items the sweep
yields, `List` returns the empty list (the model's store cannot fail, and
the operation reports no error). -/
theorem claim_C4 :
    ∀ (store : Db) (caps : Nat → Nat) (fuel offset limit : Nat),
      1 ≤ limit → (∀ k, 1 ≤ caps k) → store.length < fuel →
      store.length ≤ offset →
      ListOp store caps fuel offset limit = [] := by
  intro store caps fuel offset limit hl hc hf hoff
  unfold ListOp
  by_cases ho : 0 < offset
  · rw [if_pos ho]
    obtain ⟨p, hp1, hp2, hp3, hp4⟩ :=
      sweepLoop_spec store limit offset caps hl hc fuel 0 0 (Nat.zero_le _)
        (by omega)
    rw [List.take_zero] at hp3
    simp only [hp3]
    rw [if_pos]
    rw [List.length_take]
    omega
  · rw [if_neg ho]
    have hs : store = [] := List.length_eq_zero.mp (by omega)
    subst hs
    simp [scanPage]

/-- Witness for C4 at concrete inputs: listing with `offset = 10`,
`limit = 5` against a store of two items returns the empty list. -/
theorem claim_C4_witness :
    ListOp [sampleItem, sampleItemDup] (fun _ => 1) 3 10 5 = [] :=
  claim_C4 [sampleItem, sampleItemDup] (fun _ => 1) 3 10 5 (by omega)
    (fun _ => le_refl 1) (by decide) (by decide)

/-- Claim C1 as amended: for every `offset ≥ 1` the accumulation loop keeps
fetching pages until at least `offset+limit` items are collected or the
sweep is exhausted, and `List` returns the sweep items at positions
`offset` through `min (offset+limit) total - 1` — i.e. the slice
`(store.drop offset).take limit`.  For `offset = 0` the code takes the
single-`Scan` path instead: it returns exactly the first page
(`min limit (caps 0)` items), with no accumulation across pages. -/
theorem claim_C1 :
    (∀ (store : Db) (caps : Nat → Nat) (fuel offset limit : Nat),
        1 ≤ offset → 1 ≤ limit → (∀ k, 1 ≤ caps k) → store.length < fuel →
        ListOp store caps fuel offset limit =
          ((store.drop offset).take limit).map itemToEntity) ∧
    (∀ (store : Db) (caps : Nat → Nat) (fuel limit : Nat),
        ListOp store caps fuel 0 limit =
          (store.take (min limit (caps 0))).map itemToEntity) := by
  constructor
  · intro store caps fuel offset limit ho hl hc hf
    unfold ListOp
    rw [if_pos (by omega : 0 < offset)]
    obtain ⟨p, hp1, hp2, hp3, hp4⟩ :=
      sweepLoop_spec store limit offset caps hl hc fuel 0 0 (Nat.zero_le _)
        (by omega)
    rw [List.take_zero] at hp3
    simp only [hp3]
    rw [List.length_take, Nat.min_eq_left hp2]
    by_cases hpo : p ≤ offset
    · rw [if_pos hpo]
      have : store.length ≤ offset := by omega
      have hnil : store.drop offset = [] := List.drop_eq_nil_iff.mpr this
      rw [hnil]
      simp
    · rw [if_neg hpo]
      rw [List.take_take, Nat.min_eq_left (by omega : min (offset + limit) p ≤ p)]
      rw [List.drop_take]
      congr 1
      rw [List.take_eq_take, List.length_drop]
      omega
  · intro store caps fuel limit
    unfold ListOp
    rw [if_neg (by omega : ¬ 0 < 0)]
    simp [scanPage]

/-- Counterexample to C1 as stated: with two items in the sweep, a page
bound of one item per `Scan` call, `offset = 0` and `limit = 2`, the
operation returns a single item — it does not continue fetching pages until
`offset+limit = 2` items are accumulated, although the sweep is not
exhausted; the claimed multi-page accumulation fails at `offset = 0`. -/
theorem claim_C1_counterexample :
    (ListOp [sampleItem, sampleItemDup] (fun _ => 1) 3 0 2).length = 1 ∧
    (((([sampleItem, sampleItemDup] : Db).drop 0).take 2).map
      itemToEntity).length = 2 ∧
    ListOp [sampleItem, sampleItemDup] (fun _ => 1) 3 0 2 ≠
      ((([sampleItem, sampleItemDup] : Db).drop 0).take 2).map itemToEntity :=
  ⟨rfl, rfl, fun h => absurd (congrArg List.length h) (by decide)⟩

/-- Witness for C1 (amended) at concrete inputs: `offset = 1`, `limit = 1`
against a two-item sweep with one-item pages yields the slice at position 1;
`offset = 0` yields exactly the first page. -/
theorem claim_C1_witness :
    ListOp [sampleItem, sampleItemDup] (fun _ => 1) 3 1 1 =
      ((([sampleItem, sampleItemDup] : Db).drop 1).take 1).map itemToEntity ∧
    ListOp [sampleItem, sampleItemDup] (fun _ => 1) 3 0 2 =
      (([sampleItem, sampleItemDup] : Db).take (min 2 1)).map itemToEntity :=
  ⟨claim_C1.1 [sampleItem, sampleItemDup] (fun _ => 1) 3 1 1 (le_refl 1)
      (le_refl 1) (fun _ => le_refl 1) (by decide),
   claim_C1.2 [sampleItem, sampleItemDup] (fun _ => 1) 3 2⟩

/-! ## Decimal rendering and lexicographic order, for the identifier claims -/

/-- Digit characters are ordered like the digits they render. -/
theorem digitChar_lt (a b : Nat) (hab : a < b) (hb : b < 10) :
    digitChar a < digitChar b := by
  interval_cases b <;> interval_cases a <;> decide

/-- Digit characters are injective on digits. -/
theorem digitChar_inj (a b : Nat) (ha : a < 10) (hb : b < 10)
    (h : digitChar a = digitChar b) : a = b := by
  interval_cases a <;> interval_cases b <;>
    first
    | rfl
    | exact absurd h (by decide)

/-- A decimal rendering is never empty. -/
theorem natChars_len_pos (n : Nat) : 1 ≤ (natChars n).length := by
  rw [natChars]
  by_cases h : n < 10
  · rw [if_pos h]
    exact le_refl 1
  · rw [if_neg h]
    simp

/-- Lexicographic order is preserved under a common list placed in front. -/
theorem lex_append_left (xs : List Char) (as bs : List Char)
    (h : List.Lex (· < ·) as bs) :
    List.Lex (· < ·) (xs ++ as) (xs ++ bs) := by
  induction xs with
  | nil => exact h
  | cons x tl ih => exact List.Lex.cons ih

/-- Lexicographic order between equal-length lists is preserved when one
element is appended to each. -/
theorem lex_append_last (xs ys : List Char) (c d : Char)
    (hlen : xs.length = ys.length) (h : List.Lex (· < ·) xs ys) :
    List.Lex (· < ·) (xs ++ [c]) (ys ++ [d]) := by
  induction h with
  | nil => simp at hlen
  | @cons a as bs _ ih =>
    exact List.Lex.cons (ih (by simpa using hlen))
  | rel hab => exact List.Lex.rel hab

/-- Equal-length decimal renderings compare lexicographically exactly as the
numbers they render compare. -/
theorem natChars_lt :
    ∀ (b a : Nat), a < b → (natChars a).length = (natChars b).length →
    List.Lex (· < ·) (natChars a) (natChars b) := by
  intro b
  induction b using Nat.strong_induction_on with
  | _ b ih =>
    intro a hab hlen
    by_cases hb : b < 10
    · have ha : a < 10 := lt_trans hab hb
      rw [natChars, if_pos ha, natChars, if_pos hb]
      exact List.Lex.rel (digitChar_lt a b hab hb)
    · by_cases ha : a < 10
      · exfalso
        have h1 : (natChars a).length = 1 := by
          rw [natChars, if_pos ha]
          rfl
        have h2 : (natChars b).length = (natChars (b / 10)).length + 1 := by
          rw [natChars, if_neg hb]
          simp
        have h3 := natChars_len_pos (b / 10)
        omega
      · have hxa : natChars a = natChars (a / 10) ++ [digitChar (a % 10)] := by
          rw [natChars, if_neg ha]
        have hxb : natChars b = natChars (b / 10) ++ [digitChar (b % 10)] := by
          rw [natChars, if_neg hb]
        rw [hxa, hxb]
        rw [hxa, hxb] at hlen
        simp only [List.length_append, List.length_cons, List.length_nil] at hlen
        have hlen2 : (natChars (a / 10)).length = (natChars (b / 10)).length := by
          omega
        have hdiv : a / 10 ≤ b / 10 := Nat.div_le_div_right (le_of_lt hab)
        rcases lt_or_eq_of_le hdiv with hlt | heq
        · exact lex_append_last _ _ _ _ hlen2
            (ih (b / 10) (Nat.div_lt_self (by omega) (by omega)) (a / 10) hlt
              hlen2)
        · rw [heq]
          apply lex_append_left
          apply List.Lex.rel
          apply digitChar_lt
          · have h10a := Nat.div_add_mod a 10
            have h10b := Nat.div_add_mod b 10
            omega
          · exact Nat.mod_lt _ (by omega)

/-- Decimal renderings are injective: distinct numbers render to distinct
character lists. -/
theorem natChars_inj :
    ∀ (b a : Nat), natChars a = natChars b → a = b := by
  intro b
  induction b using Nat.strong_induction_on with
  | _ b ih =>
    intro a h
    by_cases hb : b < 10
    · by_cases ha : a < 10
      · have hua : natChars a = [digitChar a] := by rw [natChars, if_pos ha]
        have hub : natChars b = [digitChar b] := by rw [natChars, if_pos hb]
        rw [hua, hub] at h
        exact digitChar_inj a b ha hb (by simpa using h)
      · exfalso
        have hua : natChars a = natChars (a / 10) ++ [digitChar (a % 10)] := by
          rw [natChars, if_neg ha]
        have hub : natChars b = [digitChar b] := by rw [natChars, if_pos hb]
        rw [hua, hub] at h
        have hle := congrArg List.length h
        simp only [List.length_append, List.length_cons, List.length_nil] at hle
        have := natChars_len_pos (a / 10)
        omega
    · by_cases ha : a < 10
      · exfalso
        have hua : natChars a = [digitChar a] := by rw [natChars, if_pos ha]
        have hub : natChars b = natChars (b / 10) ++ [digitChar (b % 10)] := by
          rw [natChars, if_neg hb]
        rw [hua, hub] at h
        have hle := congrArg List.length h
        simp only [List.length_append, List.length_cons, List.length_nil] at hle
        have := natChars_len_pos (b / 10)
        omega
      · have hua : natChars a = natChars (a / 10) ++ [digitChar (a % 10)] := by
          rw [natChars, if_neg ha]
        have hub : natChars b = natChars (b / 10) ++ [digitChar (b % 10)] := by
          rw [natChars, if_neg hb]
        rw [hua, hub] at h
        obtain ⟨h1, h2⟩ := List.append_inj' h (by simp)
        have hdiv : a / 10 = b / 10 :=
          ih (b / 10) (Nat.div_lt_self (by omega) (by omega)) (a / 10) h1
        have hmod : a % 10 = b % 10 :=
          digitChar_inj _ _ (Nat.mod_lt _ (by omega)) (Nat.mod_lt _ (by omega))
            (by simpa using h2)
        have h10a := Nat.div_add_mod a 10
        have h10b := Nat.div_add_mod b 10
        omega

/-- The character sequence of a generated identifier: the fixed prefix
characters followed by the decimal digits of the timestamp. -/
theorem generateChargebackID_toList (t : Nat) :
    (generateChargebackID t).toList = 'c' :: 'b' :: '_' :: natChars t := rfl

/-- Claim C7 as amended: every generated identifier is the fixed literal prefix
followed by the timestamp rendered as a decimal integer; identifiers
generated at distinct times are distinct; and the later of two identifiers
is lexicographically greater whenever the two timestamps' decimal renderings
have the same number of digits (as is the case for all nanosecond
timestamps of one process lifetime in the supported era) — without that
proviso lexicographic order can disagree with creation order. -/
theorem claim_C7 :
    (∀ t : Nat, generateChargebackID t = "cb_" ++ natStr t) ∧
    (∀ t1 t2 : Nat, t1 ≠ t2 →
        generateChargebackID t1 ≠ generateChargebackID t2) ∧
    (∀ t1 t2 : Nat, t1 < t2 → (natStr t1).length = (natStr t2).length →
        generateChargebackID t1 < generateChargebackID t2) := by
  refine ⟨fun t => rfl, ?_, ?_⟩
  · intro t1 t2 hne h
    apply hne
    have h2 := congrArg String.toList h
    rw [generateChargebackID_toList, generateChargebackID_toList] at h2
    simp only [List.cons.injEq, true_and] at h2
    exact natChars_inj t2 t1 h2
  · intro t1 t2 hlt hlen
    rw [String.lt_iff_toList_lt, generateChargebackID_toList,
      generateChargebackID_toList]
    show List.Lex (· < ·) _ _
    apply List.Lex.cons
    apply List.Lex.cons
    apply List.Lex.cons
    exact natChars_lt t2 t1 hlt hlen

/-- Counterexample to C7 as stated: the identifiers generated at times 9 and
10 (decimal renderings of different lengths) compare lexicographically
against creation order — the later identifier `cb_10` is lexicographically
smaller than the earlier `cb_9`. -/
theorem claim_C7_counterexample :
    (9 : Nat) < 10 ∧
    ¬ generateChargebackID 9 < generateChargebackID 10 ∧
    generateChargebackID 10 < generateChargebackID 9 := by
  have h9 : natChars 9 = ['9'] := by
    rw [natChars]
    norm_num [digitChar]
  have h10 : natChars 10 = ['1', '0'] := by
    rw [natChars]
    norm_num
    rw [natChars]
    norm_num [digitChar]
  refine ⟨by omega, ?_, ?_⟩
  · rw [String.lt_iff_toList_lt, generateChargebackID_toList,
      generateChargebackID_toList, h9, h10]
    decide
  · rw [String.lt_iff_toList_lt, generateChargebackID_toList,
      generateChargebackID_toList, h9, h10]
    decide

/-- Witness for C7 (amended) at concrete inputs: times 3 and 5 have
single-digit renderings of equal length, so the identifiers are distinct and
ordered by creation. -/
theorem claim_C7_witness :
    generateChargebackID 3 = "cb_" ++ natStr 3 ∧
    generateChargebackID 3 ≠ generateChargebackID 5 ∧
    generateChargebackID 3 < generateChargebackID 5 := by
  have h3 : natChars 3 = ['3'] := by
    rw [natChars]
    norm_num [digitChar]
  have h5 : natChars 5 = ['5'] := by
    rw [natChars]
    norm_num [digitChar]
  refine ⟨claim_C7.1 3, claim_C7.2.1 3 5 (by omega), claim_C7.2.2 3 5 (by omega) ?_⟩
  show (String.mk (natChars 3)).length = (String.mk (natChars 5)).length
  rw [h3, h5]
  rfl

/-- Claim C8: the reason parser accepts exactly the strings whose lower-casing is
one of the four spellings (`goToLower` models `strings.ToLower`), mapping
each to its enumerant; and whenever the
parse fails on an otherwise well-formed POST, the handler responds 400 with
an error body whose message mentions the valid reason options. -/
theorem claim_C8 :
    (∀ s : String,
        (∃ r, parseChargebackReason s = .ok r) ↔
          (goToLower s = "fraud" ∨ goToLower s = "authorization_error" ∨
           goToLower s = "processing_error" ∨ goToLower s = "consumer_dispute")) ∧
    (∀ s : String, goToLower s = "fraud" →
        parseChargebackReason s = .ok ReasonFraud) ∧
    (∀ s : String, goToLower s = "authorization_error" →
        parseChargebackReason s = .ok ReasonAuthorizationError) ∧
    (∀ s : String, goToLower s = "processing_error" →
        parseChargebackReason s = .ok ReasonProcessingError) ∧
    (∀ s : String, goToLower s = "consumer_dispute" →
        parseChargebackReason s = .ok ReasonConsumerDispute) ∧
    (∀ (ρ : Type) (parseRFC3339 : String → Option Nat)
        (exec : UseCaseRequest → Except String ρ) (r : HttpRequest)
        (req : CreateChargebackRequest) (d : Nat) (e : String),
        r.method = "POST" →
        goContains r.contentType "application/json" = true →
        r.body = some req →
        parseRFC3339 req.TransactionDate = some d →
        parseChargebackReason req.Reason = .error e →
        CreateChargeback parseRFC3339 exec r = (400, .err e) ∧
        ∃ pre, e = pre ++
          "fraud, authorization_error, processing_error, consumer_dispute") := by
  have hshape : ∀ s e, parseChargebackReason s = .error e →
      e = ("invalid reason \x27" ++ s ++ "\x27. Valid options: ") ++
        "fraud, authorization_error, processing_error, consumer_dispute" := by
    intro s e h
    simp only [parseChargebackReason] at h
    by_cases h1 : goToLower s = "fraud"
    · rw [if_pos h1] at h
      exact Except.noConfusion h
    rw [if_neg h1] at h
    by_cases h2 : goToLower s = "authorization_error"
    · rw [if_pos h2] at h
      exact Except.noConfusion h
    rw [if_neg h2] at h
    by_cases h3 : goToLower s = "processing_error"
    · rw [if_pos h3] at h
      exact Except.noConfusion h
    rw [if_neg h3] at h
    by_cases h4 : goToLower s = "consumer_dispute"
    · rw [if_pos h4] at h
      exact Except.noConfusion h
    rw [if_neg h4] at h
    have he := Except.error.inj h
    rw [← he]
    rw [String.append_assoc, String.append_assoc]
    rfl
  refine ⟨?_, ?_, ?_, ?_, ?_, ?_⟩
  · intro s
    constructor
    · rintro ⟨r, hr⟩
      simp only [parseChargebackReason] at hr
      by_cases h1 : goToLower s = "fraud"
      · exact Or.inl h1
      rw [if_neg h1] at hr
      by_cases h2 : goToLower s = "authorization_error"
      · exact Or.inr (Or.inl h2)
      rw [if_neg h2] at hr
      by_cases h3 : goToLower s = "processing_error"
      · exact Or.inr (Or.inr (Or.inl h3))
      rw [if_neg h3] at hr
      by_cases h4 : goToLower s = "consumer_dispute"
      · exact Or.inr (Or.inr (Or.inr h4))
      rw [if_neg h4] at hr
      exact Except.noConfusion hr
    · intro h
      simp only [parseChargebackReason]
      rcases h with h | h | h | h <;> simp [h]
  · intro s h
    simp only [parseChargebackReason]
    rw [if_pos h]
  · intro s h
    simp only [parseChargebackReason]
    rw [if_neg (by simp [h]), if_pos h]
  · intro s h
    simp only [parseChargebackReason]
    rw [if_neg (by simp [h]), if_neg (by simp [h]), if_pos h]
  · intro s h
    simp only [parseChargebackReason]
    rw [if_neg (by simp [h]), if_neg (by simp [h]), if_neg (by simp [h]),
      if_pos h]
  · intro ρ parseRFC3339 exec r req d e hm hct hb hd hp
    constructor
    · unfold CreateChargeback
      rw [if_neg (by simp [hm])]
      rw [if_neg (by simp [hct])]
      rw [hb]
      simp only [hd, hp]
    · exact ⟨_, hshape req.Reason e hp⟩

/-- Witness for C8 at concrete inputs: the four spellings (one upper-cased)
parse to their enumerants, and a POST carrying `reason = "invalid_reason"`
gets a 400 whose error message ends with the valid options. -/
theorem claim_C8_witness :
    parseChargebackReason "FRAUD" = .ok ReasonFraud ∧
    parseChargebackReason "authorization_error" = .ok ReasonAuthorizationError ∧
    parseChargebackReason "Processing_Error" = .ok ReasonProcessingError ∧
    parseChargebackReason "consumer_dispute" = .ok ReasonConsumerDispute ∧
    CreateChargeback (fun _ => some 0) (fun _ => Except.ok ())
        { method := "POST", contentType := "application/json",
          body := some sampleReqBodyBadReason } =
      (400, .err ("invalid reason \x27invalid_reason\x27. Valid options: " ++
        "fraud, authorization_error, processing_error, consumer_dispute")) ∧
    ∃ pre,
      ("invalid reason \x27invalid_reason\x27. Valid options: " ++
        "fraud, authorization_error, processing_error, consumer_dispute") = pre ++
        "fraud, authorization_error, processing_error, consumer_dispute" :=
  have h6 := claim_C8.2.2.2.2.2 Unit (fun _ => some 0) (fun _ => Except.ok ())
    { method := "POST", contentType := "application/json",
      body := some sampleReqBodyBadReason }
    sampleReqBodyBadReason 0
    ("invalid reason \x27invalid_reason\x27. Valid options: " ++
      "fraud, authorization_error, processing_error, consumer_dispute")
    rfl (by decide) rfl rfl rfl
  ⟨claim_C8.2.1 "FRAUD" (by decide),
   claim_C8.2.2.1 "authorization_error" (by decide),
   claim_C8.2.2.2.1 "Processing_Error" (by decide),
   claim_C8.2.2.2.2.1 "consumer_dispute" (by decide),
   h6.1, h6.2⟩

/-- Claim C10: the handler's checks run in the fixed order method, Content-Type,
JSON decode, transaction_date parse, reason parse, so the first failing
check determines the response: a non-POST request gets 405 whatever its
Content-Type or body; a POST without the JSON media type in its Content-Type
gets 415 and its (decoded or undecodable) body is never consulted; a POST
with an undecodable body gets the JSON-format 400 regardless of the later
checks; a decodable body with an unparseable transaction_date gets the
date-format 400 regardless of the reason's validity. -/
theorem claim_C10 :
    (∀ (ρ : Type) (pd : String → Option Nat)
        (exec : UseCaseRequest → Except String ρ) (r : HttpRequest),
        r.method ≠ "POST" →
        CreateChargeback pd exec r = (405, .err "Method not allowed")) ∧
    (∀ (ρ : Type) (pd : String → Option Nat)
        (exec : UseCaseRequest → Except String ρ) (r : HttpRequest),
        r.method = "POST" →
        goContains r.contentType "application/json" = false →
        CreateChargeback pd exec r =
          (415, .err "Content-Type must be application/json") ∧
        ∀ body2, CreateChargeback pd exec { r with body := body2 } =
          CreateChargeback pd exec r) ∧
    (∀ (ρ : Type) (pd : String → Option Nat)
        (exec : UseCaseRequest → Except String ρ) (r : HttpRequest),
        r.method = "POST" →
        goContains r.contentType "application/json" = true →
        r.body = none →
        CreateChargeback pd exec r = (400, .err "Invalid JSON format")) ∧
    (∀ (ρ : Type) (pd : String → Option Nat)
        (exec : UseCaseRequest → Except String ρ) (r : HttpRequest)
        (req : CreateChargebackRequest),
        r.method = "POST" →
        goContains r.contentType "application/json" = true →
        r.body = some req →
        pd req.TransactionDate = none →
        CreateChargeback pd exec r =
          (400, .err "Invalid transaction_date format. Use RFC3339 format")) := by
  have h415 : ∀ (ρ : Type) (pd : String → Option Nat)
      (exec : UseCaseRequest → Except String ρ) (r : HttpRequest),
      r.method = "POST" →
      goContains r.contentType "application/json" = false →
      CreateChargeback pd exec r =
        (415, .err "Content-Type must be application/json") := by
    intro ρ pd exec r hm hct
    unfold CreateChargeback
    rw [if_neg (by simp [hm]), if_pos (by simp [hct])]
  refine ⟨?_, ?_, ?_, ?_⟩
  · intro ρ pd exec r hm
    unfold CreateChargeback
    rw [if_pos hm]
  · intro ρ pd exec r hm hct
    refine ⟨h415 ρ pd exec r hm hct, ?_⟩
    intro body2
    rw [h415 ρ pd exec r hm hct, h415 ρ pd exec { r with body := body2 } hm hct]
  · intro ρ pd exec r hm hct hb
    unfold CreateChargeback
    rw [if_neg (by simp [hm]), if_neg (by simp [hct]), hb]
  · intro ρ pd exec r req hm hct hb hd
    unfold CreateChargeback
    rw [if_neg (by simp [hm]), if_neg (by simp [hct]), hb]
    simp only [hd]

/-- Witness for C10 at concrete inputs: a GET gets 405 despite a valid body;
a `text/plain` POST gets 415 and its response does not change when the body
is replaced; an undecodable body gets the JSON 400 despite a bad date; a bad
date gets the date 400 despite a bad reason. -/
theorem claim_C10_witness :
    CreateChargeback (fun _ => some 0) (fun _ => Except.ok ())
        { method := "GET", contentType := "application/json",
          body := some sampleReqBody } =
      (405, .err "Method not allowed") ∧
    CreateChargeback (fun _ => some 0) (fun _ => Except.ok ())
        { method := "POST", contentType := "text/plain",
          body := some sampleReqBody } =
      (415, .err "Content-Type must be application/json") ∧
    CreateChargeback (fun _ => some 0) (fun _ => Except.ok ())
        { method := "POST", contentType := "text/plain", body := none } =
      CreateChargeback (fun _ => some 0) (fun _ => Except.ok ())
        { method := "POST", contentType := "text/plain",
          body := some sampleReqBody } ∧
    CreateChargeback (fun _ => none) (fun _ => Except.ok ())
        { method := "POST", contentType := "application/json", body := none } =
      (400, .err "Invalid JSON format") ∧
    CreateChargeback (fun _ => none) (fun _ => Except.ok ())
        { method := "POST", contentType := "application/json",
          body := some sampleReqBodyBadReason } =
      (400, .err "Invalid transaction_date format. Use RFC3339 format") :=
  ⟨claim_C10.1 Unit (fun _ => some 0) (fun _ => Except.ok ())
      { method := "GET", contentType := "application/json",
        body := some sampleReqBody } (by decide),
   (claim_C10.2.1 Unit (fun _ => some 0) (fun _ => Except.ok ())
      { method := "POST", contentType := "text/plain",
        body := some sampleReqBody } rfl (by decide)).1,
   (claim_C10.2.1 Unit (fun _ => some 0) (fun _ => Except.ok ())
      { method := "POST", contentType := "text/plain",
        body := some sampleReqBody } rfl (by decide)).2 none,
   claim_C10.2.2.1 Unit (fun _ => none) (fun _ => Except.ok ())
      { method := "POST", contentType := "application/json", body := none }
      rfl (by decide) rfl,
   claim_C10.2.2.2 Unit (fun _ => none) (fun _ => Except.ok ())
      { method := "POST", contentType := "application/json",
        body := some sampleReqBodyBadReason } sampleReqBodyBadReason
      rfl (by decide) rfl rfl⟩
